import Mathlib

/-!
# Verification of the voice-transcript extraction engine

Shallow embedding of `app/services/voice_service.py` (class
`VoiceProcessingService`), the natural-language-transcript parser of the
Autocare backend, together with proofs and refutations of the specified
properties.

Modelling conventions:

* Python strings are modelled as `List Char`; the engine only ever matches
  ASCII keywords, and all matching happens on lower-cased text.
* Python floats are modelled as `ℚ`.  Every number the engine manipulates is
  a parsed decimal literal or a sum/product/max/rounding of such, so `ℚ`
  is an exact model of the values involved.
* Each compiled regular expression of the source is translated into an
  explicit matching function on `List Char`; the original pattern is quoted
  in the doc comment of the corresponding definition.  All patterns are
  applied to lower-cased text, so `re.IGNORECASE` is the identity, and the
  character class `[Rs$]` matches one of `r`, `s`, `$`.
* Exceptions are modelled with `Except`: the source's
  `match.group(1)` on a pattern without any capture group raises
  `IndexError`, which the surrounding `except (ValueError, AttributeError)`
  does not catch, so it propagates to the caller.  This is modelled as
  `.error PyErr.indexError`.
-/

namespace VoiceService

/-- The uncaught Python exceptions the engine can raise.  The only one is
`IndexError: no such group`, raised by `match.group(1)` on a regex that has
no capture group (see `_extract_quantity`). -/
inductive PyErr where
  | indexError
deriving Repr, DecidableEq

/-! ## Basic character and string helpers -/

/-- ASCII lower-casing, the model of Python `str.lower()` for the ASCII
keywords the engine matches. -/
def asciiLower (c : Char) : Char :=
  if 'A' ≤ c ∧ c ≤ 'Z' then Char.ofNat (c.toNat + 32) else c

/-- Lower-case a whole string. -/
def lowerL (s : List Char) : List Char := s.map asciiLower

/-- The whitespace characters recognised by `\s` / `str.split()` /
`str.strip()` (restricted to the ASCII whitespace that can occur in
transcripts). -/
def isWS (c : Char) : Bool := c = ' ' ∨ c = '\t' ∨ c = '\n' ∨ c = '\r'

/-- ASCII decimal digit, the model of `\d`. -/
def isDigitC (c : Char) : Bool := '0' ≤ c ∧ c ≤ '9'

/-- Word character, the model of `\w` as used by the `\b` word-boundary
assertions in the source's patterns. -/
def isWordC (c : Char) : Bool :=
  ('a' ≤ c ∧ c ≤ 'z') ∨ ('A' ≤ c ∧ c ≤ 'Z') ∨ isDigitC c ∨ c = '_'

/-- Match a literal at the head of the text, returning the remainder. -/
def matchLit : List Char → List Char → Option (List Char)
  | [], rest => some rest
  | _ :: _, [] => none
  | p :: ps, c :: cs => if p = c then matchLit ps cs else none

/-- Python's substring test `needle in text`. -/
def containsSub (needle : List Char) : List Char → Bool
  | [] => needle.isEmpty
  | c :: cs => (matchLit needle (c :: cs)).isSome || containsSub needle cs

/-- Drop leading whitespace (the effect of a greedy `\s*`). -/
def dropSpaces (s : List Char) : List Char := s.dropWhile (fun c => isWS c)

/-- Strip whitespace from both ends, the model of Python `str.strip()`. -/
def trimL (s : List Char) : List Char :=
  ((s.dropWhile (fun c => isWS c)).reverse.dropWhile (fun c => isWS c)).reverse

/-- Maximal digit prefix and the remainder (a greedy `\d+` attempt; the
prefix is empty when no digit is present). -/
def takeDigitsPair (s : List Char) : List Char × List Char :=
  (s.takeWhile (fun c => isDigitC c), s.dropWhile (fun c => isDigitC c))

/-- Value of a digit string, the model of Python `int()` on a `\d+` group. -/
def digitsToNat (l : List Char) : Nat :=
  l.foldl (fun a c => a * 10 + (c.toNat - 48)) 0

/-- Greedy match of `(\d+(?:\.\d+)?)`: the captured text and the remainder.
The optional fractional part is taken when a `.` followed by at least one
digit is present, exactly as the greedy regex does. -/
def takeDecimal (s : List Char) : Option (List Char × List Char) :=
  let (d, r) := takeDigitsPair s
  if d.isEmpty then none
  else
    match r with
    | '.' :: r2 =>
        let (d2, r3) := takeDigitsPair r2
        if d2.isEmpty then some (d, r) else some (d ++ '.' :: d2, r3)
    | _ => some (d, r)

/-- Value of a captured decimal string (digits, optionally `.` digits), the
model of Python `float()` on such a group.  The values are exact decimals,
so `ℚ` represents them without loss. -/
def decimalToRat (s : List Char) : ℚ :=
  let ip := s.takeWhile (fun c => c ≠ '.')
  let fp := (s.dropWhile (fun c => c ≠ '.')).drop 1
  (digitsToNat ip : ℚ) + (digitsToNat fp : ℚ) / ((10 : ℚ) ^ fp.length)

/-- First alternative of an alternation `(?:a|b|…)` that matches at the head
of the text, returning the remainder. -/
def matchAltLits (alts : List String) (s : List Char) : Option (List Char) :=
  alts.findSome? (fun a => matchLit a.data s)

/-! ## Backtracking steps for the optional pieces of the numeric patterns

A "step" maps a position to the list of positions reachable after the piece,
in the priority order explored by the Python regex engine (greedy, i.e.
consuming alternatives first). Sequencing steps with `List.bind` explores
branches in exactly the engine's backtracking order. -/

/-- `\s*` (greedy; the following pieces never match whitespace, so the
maximal-munch branch is the only relevant one). -/
def stepSp0 (s : List Char) : List (List Char) := [dropSpaces s]

/-- An optional single-character class such as `[:\-]?` or `[Rs$]?`. -/
def stepOptChars (cs : List Char) : List Char → List (List Char)
  | [] => [[]]
  | c :: rest => if cs.contains c then [rest, c :: rest] else [c :: rest]

/-- An optional literal alternation such as `(?:is|of|was)?`. -/
def stepOptLits (alts : List String) (s : List Char) : List (List Char) :=
  (alts.filterMap (fun a => matchLit a.data s)) ++ [s]

/-- Run a list of steps from a position, in backtracking priority order. -/
def runSteps (steps : List (List Char → List (List Char))) (s : List Char) :
    List (List Char) :=
  steps.foldl (fun br f => br.flatMap f) [s]

/-- Close a capture `(\d+(?:\.\d+)?)` on the first branch where it
succeeds. -/
def firstDecimalFrom (branches : List (List Char)) :
    Option (List Char × List Char) :=
  branches.findSome? takeDecimal

/-- Close a capture `(\d+)` on the first branch where it succeeds. -/
def firstDigitsFrom (branches : List (List Char)) :
    Option (List Char × List Char) :=
  branches.findSome? (fun b =>
    let (d, r) := takeDigitsPair b
    if d.isEmpty then none else some (d, r))

/-! ## Searching and scanning -/

/-- A matcher attempts a whole pattern at the current position, returning
the text of the (single) capture group and the remainder after the match. -/
def Matcher := List Char → Option (List Char × List Char)

/-- Leftmost application of a position function, the model of `re.search`. -/
def scanFirst {α : Type} (f : List Char → Option α) : List Char → Option α
  | [] => f []
  | c :: cs =>
      match f (c :: cs) with
      | some x => some x
      | none => scanFirst f cs

/-- Group of the leftmost match, the model of `re.search(...).group(1)`. -/
def searchGroup (m : Matcher) (s : List Char) : Option (List Char) :=
  scanFirst (fun t => (m t).map (fun p => p.1)) s

/-- All non-overlapping matches, left to right, resuming after each match:
the model of `re.findall` (our matchers always consume at least one
character, so the fuel `length + 1` is never exhausted). -/
def findallAux (m : Matcher) : Nat → List Char → List (List Char)
  | 0, _ => []
  | _ + 1, [] => (match m [] with | some (g, _) => [g] | none => [])
  | fuel + 1, c :: cs =>
      match m (c :: cs) with
      | some (g, rest) => g :: findallAux m fuel rest
      | none => findallAux m fuel cs

/-- `re.findall` for a single-group pattern. -/
def findallM (m : Matcher) (s : List Char) : List (List Char) :=
  findallAux m (s.length + 1) s

/-! ## The quantity extractor (`_extract_quantity`)

The compiled quantity patterns, in cascade order:
1. `all\s*(\d+)?\s*(?:tires|tyres|wheels)`
2. `(\d+)\s*(?:tires|tyres|wheels)`
3. `both\s*(?:front|rear)`      -- no capture group!
4. `front\s*and\s*rear`         -- no capture group!
5. `(\d+)\s*(?:pcs|pieces|units)`
6. `(\d+)\s*(?:set|sets)`

The source does `if match.group(1): return int(match.group(1))` inside a
`try` that catches only `ValueError` and `AttributeError`.  For patterns 3
and 4 `match.group(1)` raises `IndexError` (no such group), which escapes.
For pattern 1 the group may be absent (`None`), in which case the
`elif 'all' in pattern.pattern and ('tire' in part_keyword or 'tyre' in
part_keyword)` branch returns 4; the subsequent
`elif 'front and rear' in pattern.pattern` never fires because the raw
pattern strings contain `front\s*and\s*rear`, not `front and rear`. -/

/-- Attempt `all\s*(\d+)?\s*(?:tires|tyres|wheels)` at a position.
`some (some d)` is a match with digits, `some none` a match whose optional
group is absent (the greedy branch with digits is preferred). -/
def q1MatchAt (s : List Char) : Option (Option (List Char)) :=
  match matchLit ("all".data) s with
  | some r =>
      let r1 := dropSpaces r
      let (d, r2) := takeDigitsPair r1
      let withDigits : Option (Option (List Char)) :=
        if d.isEmpty then none
        else
          match matchAltLits ["tires", "tyres", "wheels"] (dropSpaces r2) with
          | some _ => some (some d)
          | none => none
      match withDigits with
      | some x => some x
      | none =>
          match matchAltLits ["tires", "tyres", "wheels"] r1 with
          | some _ => some none
          | none => none
  | none => none

/-- `re.search` for quantity pattern 1. -/
def q1Search (s : List Char) : Option (Option Nat) :=
  scanFirst q1MatchAt s |>.map (fun g => g.map digitsToNat)

/-- `(\d+)\s*(?:tires|tyres|wheels)` -/
def q2M : Matcher := fun s =>
  let (d, r) := takeDigitsPair s
  if d.isEmpty then none
  else (matchAltLits ["tires", "tyres", "wheels"] (dropSpaces r)).map
    (fun r2 => (d, r2))

/-- Existence of a match of `both\s*(?:front|rear)`. -/
def q3Matches (s : List Char) : Bool :=
  (scanFirst (fun t =>
    match matchLit ("both".data) t with
    | some r => matchAltLits ["front", "rear"] (dropSpaces r)
    | none => none) s).isSome

/-- Existence of a match of `front\s*and\s*rear`. -/
def q4Matches (s : List Char) : Bool :=
  (scanFirst (fun t =>
    match matchLit ("front".data) t with
    | some r =>
        match matchLit ("and".data) (dropSpaces r) with
        | some r2 => matchLit ("rear".data) (dropSpaces r2)
        | none => none
    | none => none) s).isSome

/-- `(\d+)\s*(?:pcs|pieces|units)` -/
def q5M : Matcher := fun s =>
  let (d, r) := takeDigitsPair s
  if d.isEmpty then none
  else (matchAltLits ["pcs", "pieces", "units"] (dropSpaces r)).map
    (fun r2 => (d, r2))

/-- `(\d+)\s*(?:set|sets)` -/
def q6M : Matcher := fun s =>
  let (d, r) := takeDigitsPair s
  if d.isEmpty then none
  else (matchAltLits ["set", "sets"] (dropSpaces r)).map (fun r2 => (d, r2))

/-- `(\d+)\s+{kw}s?` (first string-built "specific" quantity pattern). -/
def qs1M (kw : List Char) : Matcher := fun s =>
  let (d, r) := takeDigitsPair s
  if d.isEmpty then none
  else
    match r with
    | c :: cs =>
        if isWS c then
          (matchLit kw (dropSpaces cs)).map (fun r2 => (d, r2))
        else none
    | [] => none

/-- `{kw}s?\s+(\d+)` (second string-built "specific" quantity pattern;
the optional `s` is tried greedily first, as the regex engine does). -/
def qs2M (kw : List Char) : Matcher := fun s =>
  match matchLit kw s with
  | some r =>
      let branches : List (List Char) :=
        match r with
        | 's' :: rest => [rest, r]
        | _ => [r]
      branches.findSome? (fun b =>
        match b with
        | c :: cs =>
            if isWS c then
              let (d, r2) := takeDigitsPair (dropSpaces cs)
              if d.isEmpty then none else some (d, r2)
            else none
        | [] => none)
  | none => none

/-- Existence of a match of `all\s+{kw}s?` (third "specific" pattern; it
has no capture group, so a match makes `match.group(1)` raise). -/
def qs3Matches (kw : List Char) (s : List Char) : Bool :=
  (scanFirst (fun t =>
    match matchLit ("all".data) t with
    | some r =>
        match r with
        | c :: cs => if isWS c then matchLit kw (dropSpaces cs) else none
        | [] => none
    | none => none) s).isSome

/-- Existence of `all\s*(?:tires|tyres)`. -/
def qAllTires (s : List Char) : Bool :=
  (scanFirst (fun t =>
    match matchLit ("all".data) t with
    | some r => matchAltLits ["tires", "tyres"] (dropSpaces r)
    | none => none) s).isSome

/-- Existence of `4\s*(?:tires|tyres)`. -/
def qFourTires (s : List Char) : Bool :=
  (scanFirst (fun t =>
    match matchLit ("4".data) t with
    | some r => matchAltLits ["tires", "tyres"] (dropSpaces r)
    | none => none) s).isSome

/-- Existence of `front\s+and\s+rear` (note `\s+`, used by the brake-pad
default, unlike the compiled pattern 4 which uses `\s*`). -/
def qFrontAndRearPlus (s : List Char) : Bool :=
  (scanFirst (fun t =>
    match matchLit ("front".data) t with
    | some (c :: cs) =>
        if isWS c then
          match matchLit ("and".data) (dropSpaces cs) with
          | some (c2 :: cs2) =>
              if isWS c2 then matchLit ("rear".data) (dropSpaces cs2) else none
          | _ => none
        else none
    | _ => none) s).isSome

/-- Existence of `all\s+four`. -/
def qAllFour (s : List Char) : Bool :=
  (scanFirst (fun t =>
    match matchLit ("all".data) t with
    | some (c :: cs) =>
        if isWS c then matchLit ("four".data) (dropSpaces cs) else none
    | _ => none) s).isSome

/-- The part-type defaults at the end of `_extract_quantity`. -/
def quantityDefaults (tl kw : List Char) : Nat :=
  if containsSub ("tire".data) kw || containsSub ("tyre".data) kw then
    if qAllTires tl || qFourTires tl then 4 else 1
  else if containsSub ("brake pad".data) kw then
    if qFrontAndRearPlus tl then 2
    else if qAllFour tl then 4
    else 1
  else 1

/-- The "specific patterns" loop of `_extract_quantity`, followed by the
defaults.  Pattern `all\s+{kw}s?` has no capture group: a match raises
`IndexError`. -/
def quantitySpecific (tl kw : List Char) : Except PyErr Nat :=
  match searchGroup (qs1M kw) tl with
  | some d => .ok (digitsToNat d)
  | none =>
      match searchGroup (qs2M kw) tl with
      | some d => .ok (digitsToNat d)
      | none =>
          if qs3Matches kw tl then .error PyErr.indexError
          else .ok (quantityDefaults tl kw)

/-- Continuation of the compiled-pattern loop after pattern 1. -/
def quantityCompiledRest (tl kw : List Char) : Except PyErr Nat :=
  match searchGroup q2M tl with
  | some d => .ok (digitsToNat d)
  | none =>
      if q3Matches tl then .error PyErr.indexError
      else if q4Matches tl then .error PyErr.indexError
      else
        match searchGroup q5M tl with
        | some d => .ok (digitsToNat d)
        | none =>
            match searchGroup q6M tl with
            | some d => .ok (digitsToNat d)
            | none => quantitySpecific tl kw

/-- `VoiceProcessingService._extract_quantity(text, part_keyword)`.

A digit group (even `"0"`, whose string is truthy in Python) is returned
as-is; for pattern 1 with an absent group, tire-family keywords get 4 and
everything else falls through to the next pattern; patterns 3 and 4
(`both\s*(?:front|rear)`, `front\s*and\s*rear`) and the string-built
`all\s+{kw}s?` have no capture group, so a first match of one of them makes
`match.group(1)` raise an uncaught `IndexError`. -/
def extract_quantity (text kw : List Char) : Except PyErr Nat :=
  let tl := lowerL text
  match q1Search tl with
  | some (some n) => .ok n
  | some none =>
      if containsSub ("tire".data) kw || containsSub ("tyre".data) kw then
        .ok 4
      else quantityCompiledRest tl kw
  | none => quantityCompiledRest tl kw

/-! ## Token patterns for the part / action / service-type regexes

The catalog regexes only use literals, `\s+`, `\s*`, an optional literal
(`s?`), and literal alternations.  They are applied to preprocessed text,
which is lower-case with collapsed whitespace. -/

/-- The regex constructs occurring in the catalog patterns. -/
inductive RTok where
  | lit (s : String)
  | sp1
  | sp0
  | opt (s : String)
  | alt (ss : List String)
deriving Repr

/-- One token's step, in backtracking priority order. -/
def tokStep : RTok → List Char → List (List Char)
  | .lit a, s => (matchLit a.data s).toList
  | .sp1, s =>
      match s with
      | c :: cs => if isWS c then [dropSpaces cs] else []
      | [] => []
  | .sp0, s => [dropSpaces s]
  | .opt a, s => (matchLit a.data s).toList ++ [s]
  | .alt ss, s => ss.filterMap (fun a => matchLit a.data s)

/-- Does the token pattern match at the head of the text? -/
def matchToksAt (ts : List RTok) (s : List Char) : Bool :=
  !(ts.foldl (fun br t => br.flatMap (tokStep t)) [s]).isEmpty

/-- `re.search` existence for a token pattern. -/
def searchToks (ts : List RTok) : List Char → Bool
  | [] => matchToksAt ts []
  | c :: cs => matchToksAt ts (c :: cs) || searchToks ts cs

/-- Scan for `\b{kw}\b` with the previous character tracked; the keywords
start and end with word characters, so the boundaries amount to: the
preceding character (if any) and the following character (if any) are
non-word. -/
def searchWBAux (kw : List Char) : Char → List Char → Bool
  | _, [] => false
  | prev, c :: cs =>
      (if !isWordC prev then
        match matchLit kw (c :: cs) with
        | some [] => true
        | some (d :: _) => !isWordC d
        | none => false
      else false)
      || searchWBAux kw c cs

/-- `re.search(rf'\b{kw}\b', text)`; the start of the string is a word
boundary, modelled by a space as the initial "previous character". -/
def searchWB (kw : List Char) (s : List Char) : Bool := searchWBAux kw ' ' s

/-- Scan for `\b{kw}\b` reachable through `[^.]*?` from the current
position: each position is testable as long as every character crossed to
reach it is not a full stop. -/
def proxScan (kw : List Char) : Char → List Char → Bool
  | _, [] => false
  | prev, c :: cs =>
      (if !isWordC prev then
        match matchLit kw (c :: cs) with
        | some [] => true
        | some (d :: _) => !isWordC d
        | none => false
      else false)
      || (if c = '.' then false else proxScan kw c cs)

/-- `re.search(rf'{ak}\s+[^.]*?\b{kw}\b', text)`: the action keyword, at
least one whitespace character, then the part keyword with word boundaries
reachable without crossing a full stop (`_extract_parts_with_improved_detection`'s
proximity test). -/
def searchProx (ak kw : List Char) : List Char → Bool
  | [] => false
  | c :: cs =>
      (match matchLit ak (c :: cs) with
      | some (d :: ds) => if isWS d then proxScan kw d ds else false
      | some [] => false
      | none => false)
      || searchProx ak kw cs

/-! ## The reference catalogs -/

/-- One entry of `VoiceProcessingService.PARTS_DICT`.  `patterns` pairs each
source regex string (stored because strategy 1 records it as the
`detection_method`) with its token translation. -/
structure PartInfo where
  id : String
  name : String
  keywords : List String
  patterns : List (String × List RTok)
  category : String
  avg_price : ℚ
  common_with : List String := []
deriving Repr

/-- `VoiceProcessingService.PARTS_DICT`, in insertion order (Python dicts
iterate in insertion order). -/
def PARTS_DICT : List PartInfo := [
  { id := "engine oil", name := "Engine Oil",
    keywords := ["engine oil", "motor oil", "oil change", "changed oil",
      "oil replaced", "oil", "lubricant"],
    patterns := [
      ("engine\\s+oil", [.lit "engine", .sp1, .lit "oil"]),
      ("motor\\s+oil", [.lit "motor", .sp1, .lit "oil"]),
      ("oil\\s+change", [.lit "oil", .sp1, .lit "change"]),
      ("changed\\s+oil", [.lit "changed", .sp1, .lit "oil"]),
      ("replaced\\s+oil", [.lit "replaced", .sp1, .lit "oil"])],
    category := "Fluid", avg_price := 500,
    common_with := ["oil filter"] },
  { id := "oil filter", name := "Oil Filter",
    keywords := ["oil filter", "filter change", "replaced filter", "filter",
      "oil element"],
    patterns := [
      ("oil\\s+filter", [.lit "oil", .sp1, .lit "filter"]),
      ("filter\\s+change", [.lit "filter", .sp1, .lit "change"]),
      ("replaced\\s+filter", [.lit "replaced", .sp1, .lit "filter"])],
    category := "Filter", avg_price := 200,
    common_with := ["engine oil", "air filter"] },
  { id := "air filter", name := "Air Filter",
    keywords := ["air filter", "air cleaner", "cabin filter",
      "air filter change", "ac filter"],
    patterns := [
      ("air\\s+filter", [.lit "air", .sp1, .lit "filter"]),
      ("cabin\\s+filter", [.lit "cabin", .sp1, .lit "filter"]),
      ("ac\\s+filter", [.lit "ac", .sp1, .lit "filter"])],
    category := "Filter", avg_price := 300,
    common_with := ["engine oil", "oil filter"] },
  { id := "fuel filter", name := "Fuel Filter",
    keywords := ["fuel filter", "petrol filter", "diesel filter"],
    patterns := [("fuel\\s+filter", [.lit "fuel", .sp1, .lit "filter"])],
    category := "Filter", avg_price := 400 },
  { id := "coolant", name := "Coolant",
    keywords := ["coolant", "anti freeze", "radiator coolant",
      "cooling fluid"],
    patterns := [
      ("coolant", [.lit "coolant"]),
      ("anti\\s*freeze", [.lit "anti", .sp0, .lit "freeze"])],
    category := "Fluid", avg_price := 350 },
  { id := "brake pad", name := "Brake Pads",
    keywords := ["brake pad", "brake pads", "pads", "front pads",
      "rear pads", "disc pads"],
    patterns := [
      ("brake\\s+pads?", [.lit "brake", .sp1, .lit "pad", .opt "s"]),
      ("front\\s+pads", [.lit "front", .sp1, .lit "pads"]),
      ("rear\\s+pads", [.lit "rear", .sp1, .lit "pads"]),
      ("disc\\s+pads", [.lit "disc", .sp1, .lit "pads"])],
    category := "Brakes", avg_price := 800,
    common_with := ["brake disc", "brake fluid"] },
  { id := "brake disc", name := "Brake Disc",
    keywords := ["brake disc", "brake disk", "disc brake", "rotor",
      "brake rotors", "discs"],
    patterns := [
      ("brake\\s+(?:disc|disk|rotor)s?",
        [.lit "brake", .sp1, .alt ["disc", "disk", "rotor"], .opt "s"]),
      ("discs?\\s+brake", [.lit "disc", .opt "s", .sp1, .lit "brake"]),
      ("rotors?\\s+brake", [.lit "rotor", .opt "s", .sp1, .lit "brake"])],
    category := "Brakes", avg_price := 1500 },
  { id := "brake fluid", name := "Brake Fluid",
    keywords := ["brake fluid", "brake oil", "hydraulic fluid", "dot fluid"],
    patterns := [
      ("brake\\s+fluid", [.lit "brake", .sp1, .lit "fluid"]),
      ("brake\\s+oil", [.lit "brake", .sp1, .lit "oil"])],
    category := "Fluid", avg_price := 250,
    common_with := ["brake pad", "brake disc"] },
  { id := "battery", name := "Battery",
    keywords := ["battery", "accumulator", "car battery", "new battery"],
    patterns := [
      ("battery", [.lit "battery"]),
      ("accumulator", [.lit "accumulator"])],
    category := "Electrical", avg_price := 2500 },
  { id := "spark plug", name := "Spark Plug",
    keywords := ["spark plug", "sparkplug", "ignition plug", "spark plugs"],
    patterns := [
      ("spark\\s*plugs?", [.lit "spark", .sp0, .lit "plug", .opt "s"]),
      ("ignition\\s+plugs?", [.lit "ignition", .sp1, .lit "plug", .opt "s"])],
    category := "Electrical", avg_price := 150 },
  { id := "alternator", name := "Alternator",
    keywords := ["alternator", "generator"],
    patterns := [
      ("alternator", [.lit "alternator"]),
      ("generator", [.lit "generator"])],
    category := "Electrical", avg_price := 3000 },
  { id := "tire", name := "Tire",
    keywords := ["tire", "tyre", "tires", "tyres", "wheel", "wheels",
      "new tyre", "tire replaced"],
    patterns := [
      ("tires?", [.lit "tire", .opt "s"]),
      ("tyres?", [.lit "tyre", .opt "s"]),
      ("wheel\\s+tire", [.lit "wheel", .sp1, .lit "tire"]),
      ("new\\s+(?:tire|tyre)", [.lit "new", .sp1, .alt ["tire", "tyre"]])],
    category := "Tires", avg_price := 2000,
    common_with := ["wheel alignment", "wheel balancing"] },
  { id := "wheel alignment", name := "Wheel Alignment",
    keywords := ["wheel alignment", "alignment", "wheel align",
      "alignment done"],
    patterns := [
      ("wheel\\s+alignment", [.lit "wheel", .sp1, .lit "alignment"]),
      ("alignment", [.lit "alignment"])],
    category := "Service", avg_price := 300,
    common_with := ["tire", "wheel balancing"] },
  { id := "wheel balancing", name := "Wheel Balancing",
    keywords := ["wheel balancing", "balancing", "wheel balance",
      "balance wheels"],
    patterns := [
      ("wheel\\s+balancing", [.lit "wheel", .sp1, .lit "balancing"]),
      ("balancing", [.lit "balancing"])],
    category := "Service", avg_price := 200,
    common_with := ["tire", "wheel alignment"] },
  { id := "ac gas", name := "AC Gas",
    keywords := ["ac gas", "refrigerant", "cooling gas", "ac refrigerant"],
    patterns := [
      ("ac\\s+gas", [.lit "ac", .sp1, .lit "gas"]),
      ("refrigerant", [.lit "refrigerant"]),
      ("cooling\\s+gas", [.lit "cooling", .sp1, .lit "gas"])],
    category := "AC", avg_price := 800 },
  { id := "timing belt", name := "Timing Belt",
    keywords := ["timing belt", "cambelt", "timing chain"],
    patterns := [
      ("timing\\s+(?:belt|chain)",
        [.lit "timing", .sp1, .alt ["belt", "chain"]]),
      ("cam\\s+belt", [.lit "cam", .sp1, .lit "belt"])],
    category := "Engine", avg_price := 3000 },
  { id := "wiper blade", name := "Wiper Blades",
    keywords := ["wiper blade", "wiper", "windshield wiper", "wiper blades"],
    patterns := [
      ("wiper\\s+(?:blades?|blade)",
        [.lit "wiper", .sp1, .lit "blade", .opt "s"]),
      ("windshield\\s+wiper", [.lit "windshield", .sp1, .lit "wiper"])],
    category := "Exterior", avg_price := 500 }]

/-- `VoiceProcessingService.ACTIONS` (only the `keywords` entries: the
`patterns` entries of `ACTIONS` are never read by the engine). -/
def ACTIONS : List (String × List String) := [
  ("replaced", ["replaced", "changed", "installed", "fitted", "put in",
    "new", "renewed", "substituted"]),
  ("repaired", ["repaired", "fixed", "mended", "adjusted", "tightened",
    "corrected", "serviced"]),
  ("checked", ["checked", "inspected", "examined", "tested", "verified",
    "looked at"]),
  ("cleaned", ["cleaned", "washed", "polished", "lubricated", "greased",
    "degreased"])]

/-- `self.ACTIONS.get(action_type, {})`'s keyword list. -/
def actionKeywords (a : String) : List String :=
  ((ACTIONS.find? (fun x => x.1 == a)).map (fun x => x.2)).getD []

/-- Lookup `part_id in self.PARTS_DICT` / `self.PARTS_DICT[part_id]`. -/
def partsDictFind (pid : String) : Option PartInfo :=
  PARTS_DICT.find? (fun p => p.id == pid)

/-- The output unit of the detectors (`_create_part_dict`'s dictionary). -/
structure Part where
  id : String
  name : String
  category : String
  estimated_price : ℚ
  action : String
  quantity : Nat
  detection_method : String
deriving Repr, DecidableEq

/-- `VoiceProcessingService._create_part_dict`. -/
def create_part_dict (p : PartInfo) (action : String) (q : Nat)
    (method : String) : Part :=
  { id := p.id, name := p.name, category := p.category,
    estimated_price := p.avg_price, action := action, quantity := q,
    detection_method := method }

/-! ## Strategy 1: pattern + action-proximity matching -/

/-- `VoiceProcessingService._extract_parts_with_improved_detection`.

For every part and every one of its patterns that matches, the first action
keyword of the requested action type that occurs in proximity
(`{ak}\s+[^.]*?\b{keywords[0]}\b`) triggers an append (with the raw pattern
string as `detection_method`); the quantity extraction may raise. -/
def extract_parts_with_improved_detection (text : List Char)
    (action_type : String) : Except PyErr (List Part) :=
  PARTS_DICT.foldlM (fun acc pinfo =>
    pinfo.patterns.foldlM (fun acc2 pat =>
      if searchToks pat.2 text then
        match (actionKeywords action_type).find? (fun ak =>
            searchProx ak.data (pinfo.keywords.headD "").data text) with
        | some _ =>
            match extract_quantity text (pinfo.keywords.headD "").data with
            | .ok q =>
                .ok (acc2 ++ [create_part_dict pinfo action_type q pat.1])
            | .error e => .error e
        | none => .ok acc2
      else .ok acc2) acc) []

/-! ## Strategy 2: comma-separated lists -/

/-- The terminators `(?:\.|for|at|Rs|$)` of the list patterns (on
lower-cased text `Rs` with `re.IGNORECASE` is `rs`; `$` is end of input). -/
def commaTerms : List (List Char) := [".".data, "for".data, "at".data,
  "rs".data]

/-- The lazy scan of `(.+?)` up to the first position where a terminator
matches (or the end of the text). -/
def lazyScan (terms : List (List Char)) : List Char → List Char
  | [] => []
  | c :: cs =>
      if terms.any (fun t => (matchLit t (c :: cs)).isSome) then []
      else c :: lazyScan terms cs

/-- The capture of `(.+?)(?:\.|for|at|Rs|$)`: at least one character, then
lazily up to the first terminator or the end. -/
def lazyGroup (terms : List (List Char)) : List Char → Option (List Char)
  | [] => none
  | c :: cs => some (c :: lazyScan terms cs)

/-- One list pattern: a literal-alternation head, `\s+`, an optional
`(?:with\s+)?`, then the lazy capture. -/
structure CommaPat where
  alts : List String
  optWith : Bool
deriving Repr

/-- The four `list_patterns` of `_extract_comma_separated_parts`:
`(?:with|including)\s+(.+?)(?:\.|for|at|Rs|$)`,
`(?:replaced|changed)\s+(.+?)(?:\.|for|at|Rs|$)`,
`full service\s+(?:with\s+)?(.+?)(?:\.|for|at|Rs|$)`,
`service\s+(?:with\s+)?(.+?)(?:\.|for|at|Rs|$)`. -/
def COMMA_PATTERNS : List CommaPat := [
  { alts := ["with", "including"], optWith := false },
  { alts := ["replaced", "changed"], optWith := false },
  { alts := ["full service"], optWith := true },
  { alts := ["service"], optWith := true }]

/-- Attempt a list pattern at the current position, returning the capture. -/
def commaMatchAt (cp : CommaPat) (s : List Char) : Option (List Char) :=
  cp.alts.findSome? (fun a =>
    match matchLit a.data s with
    | some (c :: cs) =>
        if isWS c then
          let r2 := dropSpaces cs
          let branches : List (List Char) :=
            if cp.optWith then
              match matchLit ("with".data) r2 with
              | some (d :: ds) =>
                  if isWS d then [dropSpaces ds, r2] else [r2]
              | _ => [r2]
            else [r2]
          branches.findSome? (lazyGroup commaTerms)
        else none
    | _ => none)

/-- `re.search` of a list pattern: the capture of the leftmost match. -/
def commaSearch (cp : CommaPat) (s : List Char) : Option (List Char) :=
  scanFirst (commaMatchAt cp) s

/-- Does the split separator `[,\s]+and\s+|\s*,\s*|\s+&\s+` match at the
head?  If so, return the remainder after it.  (Alternatives in order; the
greedy `[,\s]+` run can only be followed by `and` at its maximal extent,
since shorter prefixes of the run end at a separator character.) -/
def splitSepAt (s : List Char) : Option (List Char) :=
  let alt1 :=
    let run := s.takeWhile (fun c => c = ',' || isWS c)
    if run.isEmpty then none
    else
      match matchLit ("and".data) (s.drop run.length) with
      | some (c :: cs) => if isWS c then some (dropSpaces cs) else none
      | _ => none
  match alt1 with
  | some r => some r
  | none =>
      let alt2 :=
        match dropSpaces s with
        | ',' :: cs => some (dropSpaces cs)
        | _ => none
      match alt2 with
      | some r => some r
      | none =>
          match s with
          | c :: cs =>
              if isWS c then
                match dropSpaces cs with
                | '&' :: cs2 =>
                    match cs2 with
                    | d :: ds => if isWS d then some (dropSpaces ds) else none
                    | [] => none
                | _ => none
              else none
          | [] => none

/-- `re.split(r'[,\s]+and\s+|\s*,\s*|\s+&\s+', text)`: scan left to right,
cutting at each leftmost separator match. -/
def pySplitSep : Nat → List Char → List Char → List (List Char)
  | 0, cur, _ => [cur.reverse]
  | _ + 1, cur, [] => [cur.reverse]
  | fuel + 1, cur, c :: cs =>
      match splitSepAt (c :: cs) with
      | some rest => cur.reverse :: pySplitSep fuel [] rest
      | none => pySplitSep fuel (c :: cur) cs

/-- The comma-separated-list strategy
(`VoiceProcessingService._extract_comma_separated_parts`).

Every one of the four list patterns is searched (no early exit); each item
of the split capture that is longer than two characters is looked up by
substring containment against every part's keyword list; the first matching
keyword triggers a (fallible) quantity extraction and an append with
`detection_method = "comma_list"`.  (The source re-checks
`any(kw in item.lower() for kw in part_info['keywords'])` after the keyword
loop already succeeded, which is always true at that point.) -/
def extract_comma_separated_parts (text : List Char) :
    Except PyErr (List Part) :=
  COMMA_PATTERNS.foldlM (fun acc cp =>
    match commaSearch cp text with
    | some grp =>
        (pySplitSep (grp.length + 1) [] grp).foldlM (fun acc2 item0 =>
          let item := trimL item0
          if 2 < item.length then
            PARTS_DICT.foldlM (fun acc3 pinfo =>
              match pinfo.keywords.find? (fun kw =>
                  containsSub kw.data (lowerL item)) with
              | some kw =>
                  match extract_quantity text kw.data with
                  | .ok q =>
                      .ok (acc3 ++
                        [create_part_dict pinfo "replaced" q "comma_list"])
                  | .error e => .error e
              | none => .ok acc3) acc2
          else .ok acc2) acc
    | none => .ok acc) []

/-! ## Strategy 3: context rules -/

/-- The shared "add unless already present" step of
`_apply_context_rules`. -/
def addIfNew (existing added : List Part) (pid : String) (method : String) :
    List Part :=
  match partsDictFind pid with
  | some pinfo =>
      if (existing ++ added).any (fun p => p.id == pid) then added
      else added ++ [create_part_dict pinfo "replaced" 1 method]
  | none => added

/-- `VoiceProcessingService._apply_context_rules`.

Rule 1: a full/complete/major-service phrase adds the engine-oil /
oil-filter / air-filter trio.  Rule 2: a tire mention (in an already
detected part id or in the text) combined with `balancing|alignment`
wording adds the two wheel-service parts.  Rule 3: every already detected
part contributes its `common_with` partners.  Each addition is skipped when
the part id is already among `existing ++ added`. -/
def apply_context_rules (text : List Char) (existing : List Part) :
    List Part :=
  let tl := lowerL text
  let added1 : List Part :=
    if ["full service", "complete service", "major service"].any
        (fun s => containsSub s.data tl) then
      ["engine oil", "oil filter", "air filter"].foldl
        (fun ad pid => addIfNew existing ad pid "full_service_context") []
    else []
  let added2 : List Part :=
    if existing.any (fun p => containsSub ("tire".data) p.id.data)
        || containsSub ("tire".data) tl || containsSub ("tyre".data) tl then
      ["wheel alignment", "wheel balancing"].foldl
        (fun ad pid =>
          if searchToks [.alt ["balancing", "alignment"]] tl then
            addIfNew existing ad pid "tire_context"
          else ad) added1
    else added1
  existing.foldl (fun ad part =>
    match partsDictFind part.id with
    | some pinfo =>
        pinfo.common_with.foldl
          (fun ad2 rid => addIfNew existing ad2 rid "common_combo") ad
    | none => ad) added2

/-! ## Strategy 4: implied replacements -/

/-- One implied-replacement rule: the raw regex string (recorded in the
`detection_method` as `implied_{pattern}`), its token translation, and the
part hint. -/
structure ImpliedRule where
  regex : String
  toks : List RTok
  hint : String
deriving Repr

/-- The `implied_patterns` table of `_extract_implied_parts`. -/
def IMPLIED_PATTERNS : List ImpliedRule := [
  { regex := "oils?\\s+change", toks := [.lit "oil", .opt "s", .sp1,
      .lit "change"], hint := "engine oil" },
  { regex := "oil\\s+and\\s+filter", toks := [.lit "oil", .sp1, .lit "and",
      .sp1, .lit "filter"], hint := "oil filter" },
  { regex := "new\\s+battery", toks := [.lit "new", .sp1, .lit "battery"],
    hint := "battery" },
  { regex := "filter\\s+change", toks := [.lit "filter", .sp1,
      .lit "change"], hint := "oil filter" },
  { regex := "brake\\s+service", toks := [.lit "brake", .sp1,
      .lit "service"], hint := "brake pad" },
  { regex := "brake\\s+job", toks := [.lit "brake", .sp1, .lit "job"],
    hint := "brake pad" },
  { regex := "full\\s+service", toks := [.lit "full", .sp1, .lit "service"],
    hint := "multiple" },
  { regex := "tire\\s+rotation", toks := [.lit "tire", .sp1,
      .lit "rotation"], hint := "tire" },
  { regex := "wheel\\s+service", toks := [.lit "wheel", .sp1,
      .lit "service"], hint := "wheel alignment" }]

/-- `VoiceProcessingService._extract_implied_parts`.  The `"multiple"` hint
expands to the default service trio with `detection_method =
"implied_full_service"`; other hints are added with `detection_method =
"implied_{pattern}"`. -/
def extract_implied_parts (text : List Char) : List Part :=
  let tl := lowerL text
  IMPLIED_PATTERNS.foldl (fun acc rule =>
    if searchToks rule.toks tl then
      if rule.hint == "multiple" then
        acc ++ (["engine oil", "oil filter", "air filter"].filterMap
          (fun k => (partsDictFind k).map
            (fun pinfo =>
              create_part_dict pinfo "replaced" 1 "implied_full_service")))
      else
        match partsDictFind rule.hint with
        | some pinfo =>
            acc ++ [create_part_dict pinfo "replaced" 1
              ("implied_" ++ rule.regex)]
        | none => acc
    else acc) []

/-! ## Deduplication -/

/-- The worker of `_remove_duplicate_parts`: `seen` is the set of part ids
already emitted. -/
def rdpAux (seen : List String) : List Part → List Part
  | [] => []
  | p :: ps =>
      if p.id ∈ seen then rdpAux seen ps
      else p :: rdpAux (p.id :: seen) ps

/-- `VoiceProcessingService._remove_duplicate_parts`: keep the first
occurrence of each part id, preserving order. -/
def remove_duplicate_parts (parts : List Part) : List Part := rdpAux [] parts

/-! ## Preprocessing (`_preprocess_text`) -/

/-- Python `str.replace(old, new)`: replace every non-overlapping
occurrence, left to right, continuing after the inserted text.  The fuel is
the length of the scanned text plus one; every step consumes at least one
character of it. -/
def replace1 (old new : List Char) : Nat → List Char → List Char
  | 0, s => s
  | _ + 1, [] => []
  | fuel + 1, c :: cs =>
      match matchLit old (c :: cs) with
      | some rest => new ++ replace1 old new fuel rest
      | none => c :: replace1 old new fuel cs

/-- The `replacements` table of `_preprocess_text`, in insertion order.
(The `' Rs'` entry can never fire on the lower-cased input but is kept for
fidelity.) -/
def preprocessRepls : List (String × String) := [
  (" & ", " and "), (" + ", " and "), (" w/ ", " with "), (" w ", " with "),
  (" ac ", " air conditioning "), (" a/c ", " air conditioning "),
  (" km ", " kilometers "), (" kms ", " kilometers "), (" rs ", " rupees "),
  (" Rs", " rupees "), ("inr ", "rupees ")]

/-- Collapse whitespace runs into single spaces
(`re.sub(r'\s+', ' ', processed)`); `prevWS` records whether the previous
character was whitespace. -/
def collapseAux : Bool → List Char → List Char
  | _, [] => []
  | prevWS, c :: cs =>
      if isWS c then
        if prevWS then collapseAux true cs else ' ' :: collapseAux true cs
      else c :: collapseAux false cs

/-- `VoiceProcessingService._preprocess_text`: apply the replacement table,
collapse whitespace, strip. -/
def preprocess (t : List Char) : List Char :=
  trimL (collapseAux false
    (preprocessRepls.foldl
      (fun s pr => replace1 pr.1.data pr.2.data (s.length + 1) s) t))

/-! ## The service-type classifier (`_extract_service_type`) -/

/-- `VoiceProcessingService.SERVICE_TYPES`, in insertion order: tag,
patterns, keywords. -/
def SERVICE_TYPES : List (String × List (List RTok) × List String) := [
  ("regular_service",
    ([[.lit "full", .sp1, .lit "service"],
      [.lit "complete", .sp1, .lit "service"],
      [.lit "regular", .sp1, .lit "service"]],
     ["service", "maintenance", "regular", "periodic", "scheduled",
      "routine", "full service", "complete service"])),
  ("repair",
    ([[.lit "repair"], [.lit "broken"], [.lit "not", .sp1, .lit "working"]],
     ["repair", "broken", "damaged", "faulty", "not working", "issue",
      "problem", "fix"])),
  ("inspection",
    ([[.lit "inspection"], [.lit "check"], [.lit "diagnosis"]],
     ["inspection", "check", "test", "diagnosis", "evaluation", "scan"])),
  ("emergency",
    ([[.lit "emergency"], [.lit "breakdown"], [.lit "urgent"]],
     ["emergency", "urgent", "breakdown", "tow", "stranded", "immediate"])),
  ("warranty",
    ([[.lit "warranty"], [.lit "guarantee"]],
     ["warranty", "guarantee", "under warranty"]))]

/-- `VoiceProcessingService._extract_service_type`: first category whose
patterns (checked first) or `\b`-delimited keywords match; then the
full-service and emergency fallbacks; default `regular_service`.  The
values are the string values of the `ServiceType` enum (a `str` enum whose
members equal their values). -/
def extract_service_type (text : List Char) : String :=
  let tl := lowerL text
  match SERVICE_TYPES.findSome? (fun st =>
      if st.2.1.any (fun p => searchToks p tl) then some st.1
      else if st.2.2.any (fun k => searchWB k.data tl) then some st.1
      else none) with
  | some tag => tag
  | none =>
      if ["full service", "complete service", "major service"].any
          (fun w => containsSub w.data tl) then "regular_service"
      else if ["emergency", "breakdown", "stranded", "urgent"].any
          (fun w => containsSub w.data tl) then "emergency"
      else "regular_service"

/-! ## The cost extractors -/

/-- Cost pattern 1: `total\s*[:\-]?\s*[Rs$]?\s*(\d+(?:\.\d+)?)`. -/
def c1M : Matcher := fun s =>
  match matchLit ("total".data) s with
  | some r => firstDecimalFrom (runSteps [stepSp0, stepOptChars [':', '-'],
      stepSp0, stepOptChars ['r', 's', '$'], stepSp0] r)
  | none => none

/-- Cost pattern 2: `[Rs$]\s*(\d+(?:\.\d+)?)\s*(?:in total|total|altogether)`. -/
def c2M : Matcher := fun s =>
  match s with
  | c :: cs =>
      if c = 'r' ∨ c = 's' ∨ c = '$' then
        match takeDecimal (dropSpaces cs) with
        | some (g, r) =>
            (matchAltLits ["in total", "total", "altogether"]
              (dropSpaces r)).map (fun r2 => (g, r2))
        | none => none
      else none
  | [] => none

/-- Cost pattern 3: `cost\s*(?:is|of|was)?\s*[:\-]?\s*[Rs$]?\s*(\d+(?:\.\d+)?)`. -/
def c3M : Matcher := fun s =>
  match matchLit ("cost".data) s with
  | some r => firstDecimalFrom (runSteps [stepSp0,
      stepOptLits ["is", "of", "was"], stepSp0, stepOptChars [':', '-'],
      stepSp0, stepOptChars ['r', 's', '$'], stepSp0] r)
  | none => none

/-- Cost pattern 4: `(\d+(?:\.\d+)?)\s*(?:rs|rupees|Rs|inr)\s*(?:in total|total)?`
(on lower-cased text the alternation is `rs|rupees|rs|inr`; the trailing
`\s*` is consumed even when the optional alternation is absent, which fixes
where `findall` resumes). -/
def c4M : Matcher := fun s =>
  match takeDecimal s with
  | some (g, r) =>
      match matchAltLits ["rs", "rupees", "rs", "inr"] (dropSpaces r) with
      | some r2 =>
          let r3 := dropSpaces r2
          match matchAltLits ["in total", "total"] r3 with
          | some r4 => some (g, r4)
          | none => some (g, r3)
      | none => none
  | none => none

/-- Cost pattern 5: `[Rs$]\s*(\d+(?:\.\d+)?)`. -/
def c5M : Matcher := fun s =>
  match s with
  | c :: cs =>
      if c = 'r' ∨ c = 's' ∨ c = '$' then takeDecimal (dropSpaces cs)
      else none
  | [] => none

/-- Cost pattern 6: `charged\s*[Rs$]?\s*(\d+(?:\.\d+)?)`. -/
def c6M : Matcher := fun s =>
  match matchLit ("charged".data) s with
  | some r => firstDecimalFrom (runSteps [stepSp0,
      stepOptChars ['r', 's', '$'], stepSp0] r)
  | none => none

/-- Cost pattern 7: `bill\s*(?:of|for)?\s*[Rs$]?\s*(\d+(?:\.\d+)?)`. -/
def c7M : Matcher := fun s =>
  match matchLit ("bill".data) s with
  | some r => firstDecimalFrom (runSteps [stepSp0, stepOptLits ["of", "for"],
      stepSp0, stepOptChars ['r', 's', '$'], stepSp0] r)
  | none => none

/-- Cost pattern 8: `(\d+)\s*(?:rupees|rs|rp)` (digits only, no decimals). -/
def c8M : Matcher := fun s =>
  let (d, r) := takeDigitsPair s
  if d.isEmpty then none
  else (matchAltLits ["rupees", "rs", "rp"] (dropSpaces r)).map
    (fun r2 => (d, r2))

/-- The compiled cost-pattern cascade, in order. -/
def costMatchers : List Matcher := [c1M, c2M, c3M, c4M, c5M, c6M, c7M, c8M]

/-- The candidate amounts collected by `_extract_total_cost`: every
`findall` group of every pattern, parsed (the groups are decimal literals,
so the `float` conversion never fails and the comma-strip is a no-op),
kept when it lies in the valid range `[10, 1000000]`. -/
def totalCostCandidates (text : List Char) : List ℚ :=
  costMatchers.flatMap (fun m =>
    (findallM m (lowerL text)).filterMap (fun g =>
      let a := decimalToRat g
      if 10 ≤ a ∧ a ≤ 1000000 then some a else none))

/-- `VoiceProcessingService._extract_total_cost`: no candidate → `0.0`;
exactly one → that amount; several → their maximum. -/
def extract_total_cost (text : List Char) : ℚ :=
  match totalCostCandidates text with
  | [] => 0
  | a :: rest => if rest.isEmpty then a else rest.foldl max a

/-- Scoped cost pattern 1:
`{kw}\s*(?:cost|charge|fee)?\s*[:\-]?\s*[Rs$]?\s*(\d+(?:\.\d+)?)`. -/
def kc1M (kw : String) : Matcher := fun s =>
  match matchLit kw.data s with
  | some r => firstDecimalFrom (runSteps [stepSp0,
      stepOptLits ["cost", "charge", "fee"], stepSp0, stepOptChars [':', '-'],
      stepSp0, stepOptChars ['r', 's', '$'], stepSp0] r)
  | none => none

/-- Scoped cost pattern 2: `[Rs$]\s*(\d+(?:\.\d+)?)\s*(?:for|on)\s*{kw}`. -/
def kc2M (kw : String) : Matcher := fun s =>
  match s with
  | c :: cs =>
      if c = 'r' ∨ c = 's' ∨ c = '$' then
        match takeDecimal (dropSpaces cs) with
        | some (g, r) =>
            match matchAltLits ["for", "on"] (dropSpaces r) with
            | some r2 => (matchLit kw.data (dropSpaces r2)).map
                (fun r3 => (g, r3))
            | none => none
        | none => none
      else none
  | [] => none

/-- Scoped cost pattern 3: `{kw}\s*[Rs$]\s*(\d+(?:\.\d+)?)`. -/
def kc3M (kw : String) : Matcher := fun s =>
  match matchLit kw.data s with
  | some r =>
      match dropSpaces r with
      | c :: cs =>
          if c = 'r' ∨ c = 's' ∨ c = '$' then takeDecimal (dropSpaces cs)
          else none
      | [] => none
  | none => none

/-- `VoiceProcessingService._extract_cost`: for each keyword in turn, the
three scoped patterns in turn; the first `re.search` group found is
returned as a float, else `0.0`.  (No range filter is applied here, unlike
`_extract_total_cost`.) -/
def extract_cost (text : List Char) (keywords : List String) : ℚ :=
  let tl := lowerL text
  match keywords.findSome? (fun kw =>
      [kc1M kw, kc2M kw, kc3M kw].findSome? (fun m => searchGroup m tl)) with
  | some g => decimalToRat g
  | none => 0

/-! ## The odometer extractor (`_extract_odometer`) -/

/-- Odometer pattern 1: `(\d{4,6})\s*(?:km|kms|kilometer|kilometers)`.
A greedy `\d{4,6}` followed by a non-digit context can only close on a
maximal digit run of length 4 to 6 starting at the current position. -/
def o1M : Matcher := fun s =>
  let (d, r) := takeDigitsPair s
  if 4 ≤ d.length ∧ d.length ≤ 6 then
    (matchAltLits ["km", "kms", "kilometer", "kilometers"]
      (dropSpaces r)).map (fun r2 => (d, r2))
  else none

/-- Odometer pattern 2: `odometer\s*(?:reading|is|at)?\s*[:\-]?\s*(\d+)`. -/
def o2M : Matcher := fun s =>
  match matchLit ("odometer".data) s with
  | some r => firstDigitsFrom (runSteps [stepSp0,
      stepOptLits ["reading", "is", "at"], stepSp0, stepOptChars [':', '-'],
      stepSp0] r)
  | none => none

/-- Odometer pattern 3: `(\d+)\s*(?:on the odometer|reading|on odometer)`. -/
def o3M : Matcher := fun s =>
  let (d, r) := takeDigitsPair s
  if d.isEmpty then none
  else (matchAltLits ["on the odometer", "reading", "on odometer"]
    (dropSpaces r)).map (fun r2 => (d, r2))

/-- Odometer pattern 4: `at\s*(\d+)\s*km`. -/
def o4M : Matcher := fun s =>
  match matchLit ("at".data) s with
  | some r =>
      let (d, r2) := takeDigitsPair (dropSpaces r)
      if d.isEmpty then none
      else (matchLit ("km".data) (dropSpaces r2)).map (fun r3 => (d, r3))
  | none => none

/-- Odometer pattern 5: `(\d+)\s*km\s*(?:done|completed|run)`. -/
def o5M : Matcher := fun s =>
  let (d, r) := takeDigitsPair s
  if d.isEmpty then none
  else
    match matchLit ("km".data) (dropSpaces r) with
    | some r2 =>
        (matchAltLits ["done", "completed", "run"] (dropSpaces r2)).map
          (fun r3 => (d, r3))
    | none => none

/-- Odometer pattern 6: `(\d+)\s*(?:km\s*reading)`. -/
def o6M : Matcher := fun s =>
  let (d, r) := takeDigitsPair s
  if d.isEmpty then none
  else
    match matchLit ("km".data) (dropSpaces r) with
    | some r2 => (matchLit ("reading".data) (dropSpaces r2)).map
        (fun r3 => (d, r3))
    | none => none

/-- The compiled odometer cascade, in order. -/
def odoMatchers : List Matcher := [o1M, o2M, o3M, o4M, o5M, o6M]

/-- `VoiceProcessingService._extract_odometer`: for each pattern, the first
match is considered; its value is returned when it lies in
`[1000, 500000]`, otherwise the cascade moves on; `None` when nothing
qualifies. -/
def extract_odometer (text : List Char) : Option Nat :=
  let tl := lowerL text
  odoMatchers.findSome? (fun m =>
    match searchGroup m tl with
    | some g =>
        let v := digitsToNat g
        if 1000 ≤ v ∧ v ≤ 500000 then some v else none
    | none => none)

/-! ## Date information (`_extract_date_info`) -/

/-- The `date_info` dictionary: present keys are modelled as `Option` /
`Bool` fields; the empty dictionary is the record with `none`/`false`
everywhere. -/
structure DateInfo where
  service_date : Option String
  has_next_service : Bool
  specific_date : Option String
deriving Repr, DecidableEq

/-- Lower-case ASCII letter. -/
def isLowerAlpha (c : Char) : Bool := 'a' ≤ c ∧ c ≤ 'z'

/-- `\d{1,2}` (greedy: two digits first, then one), paired with the
remainder. -/
def upTo2Digits : List Char → List (List Char × List Char)
  | a :: b :: r =>
      if isDigitC a ∧ isDigitC b then [([a, b], r), ([a], b :: r)]
      else if isDigitC a then [([a], b :: r)]
      else []
  | [a] => if isDigitC a then [([a], [])] else []
  | [] => []

/-- `\d{4}` exactly. -/
def exactly4Digits : List Char → Option (List Char × List Char)
  | a :: b :: c :: d :: r =>
      if isDigitC a ∧ isDigitC b ∧ isDigitC c ∧ isDigitC d then
        some ([a, b, c, d], r)
      else none
  | _ => none

/-- Full-match attempt of `(\d{1,2})[/\-](\d{1,2})[/\-](\d{4})` at the
current position (the full matched text is what `match.group()` returns). -/
def date1At (s : List Char) : Option (List Char) :=
  (upTo2Digits s).findSome? (fun p1 =>
    match p1.2 with
    | sep1 :: r2 =>
        if sep1 = '/' ∨ sep1 = '-' then
          (upTo2Digits r2).findSome? (fun p2 =>
            match p2.2 with
            | sep2 :: r4 =>
                if sep2 = '/' ∨ sep2 = '-' then
                  (exactly4Digits r4).map
                    (fun y => p1.1 ++ sep1 :: p2.1 ++ sep2 :: y.1)
                else none
            | [] => none)
        else none
    | [] => none)

/-- Full-match attempt of
`(\d{1,2})\s+(?:jan|feb|mar|apr|may|jun|jul|aug|sep|oct|nov|dec)[a-z]*\s+(\d{4})`
at the current position. -/
def date2At (s : List Char) : Option (List Char) :=
  (upTo2Digits s).findSome? (fun p1 =>
    match p1.2 with
    | c :: cs =>
        if isWS c then
          let sp := (c :: cs).takeWhile (fun x => isWS x)
          let r2 := (c :: cs).dropWhile (fun x => isWS x)
          match matchAltLits ["jan", "feb", "mar", "apr", "may", "jun",
              "jul", "aug", "sep", "oct", "nov", "dec"] r2 with
          | some r3 =>
              let tail := r3.takeWhile (fun x => isLowerAlpha x)
              let r4 := r3.dropWhile (fun x => isLowerAlpha x)
              match r4 with
              | c2 :: cs2 =>
                  if isWS c2 then
                    let sp2 := (c2 :: cs2).takeWhile (fun x => isWS x)
                    let r5 := (c2 :: cs2).dropWhile (fun x => isWS x)
                    (exactly4Digits r5).map (fun y =>
                      p1.1 ++ sp ++ r2.take 3 ++ tail ++ sp2 ++ y.1)
                  else none
              | [] => none
          | none => none
        else none
    | [] => none)

/-- `VoiceProcessingService._extract_date_info`. -/
def extract_date_info (text : List Char) : DateInfo :=
  let tl := lowerL text
  { service_date :=
      if containsSub ("today".data) tl then some "today"
      else if containsSub ("tomorrow".data) tl then some "tomorrow"
      else if containsSub ("yesterday".data) tl then some "yesterday"
      else none,
    has_next_service :=
      ["next service", "next maintenance", "come back", "return in"].any
        (fun w => containsSub w.data tl),
    specific_date :=
      match scanFirst date1At tl with
      | some m => some (String.mk m)
      | none => (scanFirst date2At tl).map String.mk }

/-! ## The confidence scorer (`_calculate_improved_confidence`) -/

/-- Python `str.split()` (no argument): whitespace-separated words,
empties dropped. -/
def pySplitWS : List Char → List (List Char)
  | [] => []
  | c :: cs =>
      if isWS c then pySplitWS cs
      else
        match pySplitWS cs with
        | [] => [[c]]
        | w :: ws => if isWS (cs.headD ' ') then [c] :: w :: ws
                     else (c :: w) :: ws

/-- The "good keywords" list of `_calculate_improved_confidence`. -/
def goodKeywords : List String := ["replaced", "changed", "service", "cost",
  "rupees", "km", "filter", "oil", "brake", "tire"]

/-- The action-word list of `_calculate_improved_confidence` (substring
test). -/
def confActionWords : List String := ["replaced", "changed", "fixed",
  "installed", "checked"]

/-- The service-context list of `_calculate_improved_confidence` (substring
test). -/
def confServiceWords : List String := ["service", "maintenance", "repair",
  "inspection"]

/-- `VoiceProcessingService._calculate_improved_confidence`: a base of 0.3
plus conditional increments, clamped to at most 1.0.  The decimal constants
are exact in `ℚ` (0.3 = 3/10, 0.15 = 3/20, 0.4 = 2/5, 0.2 = 1/5,
0.05 = 1/20, 0.1 = 1/10, 0.02 = 0.02).  `if odometer:` is Python truthiness:
false for `None` and for 0. -/
def calculate_improved_confidence (text : List Char) (pr pp : List Part)
    (total : ℚ) (odo : Option Nat) : ℚ :=
  let tl := lowerL text
  let partsCount : Nat := pr.length + pp.length
  let incParts : ℚ :=
    if 0 < partsCount then min (2/5) ((partsCount : ℚ) * (3/20)) else 0
  let incCost : ℚ :=
    if 0 < total then
      1/5 + (if 100 ≤ total ∧ total ≤ 100000 then 1/20 else 0)
    else 0
  let incOdo : ℚ :=
    if (match odo with | some v => decide (v ≠ 0) | none => false) then 1/10
    else 0
  let kwCount : Nat :=
    (goodKeywords.filter (fun k => searchWB k.data tl)).length
  let incKw : ℚ := min (3/20) ((kwCount : ℚ) * (1/50))
  let wordCount : Nat := (pySplitWS text).length
  let incLen : ℚ :=
    if 10 < wordCount then 1/10 else if 5 < wordCount then 1/20 else 0
  let incAct : ℚ :=
    if confActionWords.any (fun w => containsSub w.data tl) then 1/20 else 0
  let incSvc : ℚ :=
    if confServiceWords.any (fun w => containsSub w.data tl) then 1/20
    else 0
  min (3/10 + incParts + incCost + incOdo + incKw + incLen + incAct + incSvc)
    1

/-! ## The summary generator and the cost estimator -/

/-- Python `str.title()` restricted to ASCII: upper-case every alphabetic
character that does not follow an alphabetic character. -/
def titleAux : Bool → List Char → List Char
  | _, [] => []
  | prevAlpha, c :: cs =>
      let isAlpha := isLowerAlpha c || ('A' ≤ c ∧ c ≤ 'Z')
      let c2 := if isAlpha ∧ ¬prevAlpha ∧ isLowerAlpha c then
          Char.ofNat (c.toNat - 32)
        else c
      c2 :: titleAux isAlpha cs

/-- `service_type.replace('_', ' ').title()`. -/
def titleOfTag (tag : String) : String :=
  String.mk (titleAux false (tag.data.map (fun c =>
    if c = '_' then ' ' else c)))

/-- Fixed two-decimal rendering of a non-negative amount, the model of
Python `f"{x:.2f}"` for the exact decimal values the engine produces. -/
def formatFixed2 (q : ℚ) : String :=
  let n : Int := round (q * 100)
  let m : Nat := n.toNat
  toString (m / 100) ++ "." ++ (if m % 100 < 10 then "0" else "") ++
    toString (m % 100)

/-- `VoiceProcessingService._generate_detailed_work_summary`. -/
def generate_detailed_work_summary (pr pp : List Part) (stype : String)
    (total : ℚ) : String :=
  let replacedNames : List String := pr.map (fun p =>
    if 1 < p.quantity then
      p.name ++ " (x" ++ toString p.quantity ++ ")"
    else p.name)
  let parts1 : List String :=
    if pr.isEmpty then [] else
      ["Replaced: " ++ String.intercalate ", " replacedNames]
  let parts2 : List String :=
    if pp.isEmpty then parts1 else
      parts1 ++ ["Repaired: " ++
        String.intercalate ", " (pp.map (fun p => p.name))]
  if parts2.isEmpty then titleOfTag stype ++ " performed"
  else
    (titleOfTag stype ++ ". " ++ String.intercalate ". " parts2) ++
      (if 0 < total then " Total cost: Rs" ++ formatFixed2 total else "")

/-- Round to two decimal places (`round(total, 2)`); the engine only ever
rounds exact multiples of 1/20, for which every rounding convention
agrees. -/
def round2 (q : ℚ) : ℚ := (round (q * 100) : ℚ) / 100

/-- `VoiceProcessingService._estimate_cost`: replaced parts at full
catalog price times quantity, repaired parts at half price, plus a labor
estimate of `max(total * 0.3, 500)` when no labor figure was found. -/
def estimate_cost (pr pp : List Part) (labor : ℚ) : ℚ :=
  let t1 := pr.foldl
    (fun t p => t + p.estimated_price * (p.quantity : ℚ)) labor
  let t2 := pp.foldl
    (fun t p => t + p.estimated_price * (1/2) * (p.quantity : ℚ)) t1
  let t3 := if labor = 0 ∧ 0 < t2 then t2 + max (t2 * (3/10)) 500 else t2
  round2 t3

/-! ## The top-level pipeline (`process_transcript`) -/

/-- The output structure (`process_transcript`'s result dictionary). -/
structure ParseResult where
  transcript : String
  service_type : String
  parts_replaced : List Part
  parts_repaired : List Part
  labor_cost : ℚ
  parts_cost : ℚ
  total_cost : ℚ
  odometer_reading : Option Nat
  date_info : DateInfo
  work_summary : String
  confidence_score : ℚ
  parsed_successfully : Bool
  raw_parts_found : List String
deriving Repr, DecidableEq

/-- The short-circuit result for an empty or whitespace-only transcript. -/
def emptyParse (t : String) : ParseResult :=
  { transcript := t, service_type := "regular_service",
    parts_replaced := [], parts_repaired := [], labor_cost := 0,
    parts_cost := 0, total_cost := 0, odometer_reading := none,
    date_info :=
      { service_date := none, has_next_service := false,
        specific_date := none },
    work_summary := "No transcript provided", confidence_score := 0,
    parsed_successfully := false, raw_parts_found := [] }

/-- The preprocessed lower-cased transcript used by every stage. -/
def preT (t : String) : List Char := preprocess (lowerL t.data)

/-- Assembly of the result once the three fallible part detections have
succeeded, mirroring the source line by line: merge and deduplicate the
strategies' outputs, extract costs and odometer and dates, score the
confidence and render the summary with the cascade total (both computed
before the estimation step), then estimate the total when it is zero and
parts were found, and fall back to `labor + parts` when the total is still
falsy (`total_cost or (labor_cost + parts_cost)`). -/
def assemble (t : String) (pre : List Char) (stype : String)
    (s1r s1p comma : List Part) : ParseResult :=
  let r1 := s1r ++ comma
  let r2 := r1 ++ apply_context_rules pre r1
  let r3 := r2 ++ extract_implied_parts pre
  let partsReplaced := remove_duplicate_parts r3
  let partsRepaired := remove_duplicate_parts s1p
  let labor := extract_cost pre ["labor", "work", "service", "charge", "fee"]
  let partsC := extract_cost pre ["parts", "spares", "components",
    "material"]
  let total := extract_total_cost pre
  let odo := extract_odometer pre
  let conf := calculate_improved_confidence pre partsReplaced partsRepaired
    total odo
  let summary := generate_detailed_work_summary partsReplaced partsRepaired
    stype total
  let total2 :=
    if total = 0 ∧ (¬partsReplaced.isEmpty ∨ ¬partsRepaired.isEmpty) then
      estimate_cost partsReplaced partsRepaired labor
    else total
  { transcript := t, service_type := stype,
    parts_replaced := partsReplaced, parts_repaired := partsRepaired,
    labor_cost := labor, parts_cost := partsC,
    total_cost := if total2 ≠ 0 then total2 else labor + partsC,
    odometer_reading := odo, date_info := extract_date_info pre,
    work_summary := summary, confidence_score := conf,
    parsed_successfully := decide ((3/10 : ℚ) < conf),
    raw_parts_found := partsReplaced.map (fun p => p.name) }

/-- The non-short-circuit path of `process_transcript`: the three fallible
detections run in source order (strategy 1 for "replaced", strategy 1 for
"repaired", then the comma strategy), an uncaught exception from any of
them aborting the call. -/
def process_main (t : String) : Except PyErr ParseResult :=
  match extract_parts_with_improved_detection (preT t) "replaced" with
  | .error e => .error e
  | .ok s1r =>
      match extract_parts_with_improved_detection (preT t) "repaired" with
      | .error e => .error e
      | .ok s1p =>
          match extract_comma_separated_parts (preT t) with
          | .error e => .error e
          | .ok comma =>
              .ok (assemble t (preT t) (extract_service_type (preT t)) s1r
                s1p comma)

/-- `VoiceProcessingService.process_transcript`: the guard
`if not transcript or not transcript.strip()` short-circuits on an empty or
whitespace-only transcript; otherwise the pipeline runs (and can raise, see
`PyErr`). -/
def process_transcript (t : String) : Except PyErr ParseResult :=
  if trimL t.data = [] then .ok (emptyParse t) else process_main t

/-- Unpack a pipeline result, with a default for the error case (used to
state closed witness facts about concrete runs). -/
def okOr (d : ParseResult) : Except PyErr ParseResult → ParseResult
  | .ok r => r
  | .error _ => d

/-! ## Lemmas about deduplication -/

theorem rdpAux_not_mem_seen (l : List Part) :
    ∀ (seen : List String) (q : Part), q ∈ rdpAux seen l → q.id ∉ seen := by
  induction l with
  | nil => intro seen q h; simp [rdpAux] at h
  | cons p ps ih =>
      intro seen q h
      by_cases hp : p.id ∈ seen
      · rw [rdpAux, if_pos hp] at h
        exact ih seen q h
      · rw [rdpAux, if_neg hp] at h
        rcases List.mem_cons.mp h with rfl | hq
        · exact hp
        · intro hcon
          exact (ih _ q hq) (List.mem_cons_of_mem _ hcon)

theorem rdpAux_nodup (l : List Part) :
    ∀ seen : List String, ((rdpAux seen l).map Part.id).Nodup := by
  induction l with
  | nil => intro seen; simp [rdpAux]
  | cons p ps ih =>
      intro seen
      by_cases hp : p.id ∈ seen
      · simpa [rdpAux, hp] using ih seen
      · rw [rdpAux, if_neg hp]
        simp only [List.map_cons, List.nodup_cons]
        refine ⟨?_, ih _⟩
        intro hmem
        rcases List.mem_map.mp hmem with ⟨q, hq, hqid⟩
        exact (rdpAux_not_mem_seen ps _ q hq)
          (hqid ▸ List.mem_cons_self _ _)

theorem rdpAux_find? (l : List Part) :
    ∀ (seen : List String) (q : Part), q ∈ rdpAux seen l →
      l.find? (fun p => p.id == q.id) = some q := by
  induction l with
  | nil => intro seen q h; simp [rdpAux] at h
  | cons p ps ih =>
      intro seen q h
      by_cases hp : p.id ∈ seen
      · rw [rdpAux, if_pos hp] at h
        have hq := rdpAux_not_mem_seen ps seen q h
        have hne : (p.id == q.id) = false := by
          refine beq_false_of_ne ?_
          intro he; exact hq (he ▸ hp)
        rw [List.find?_cons, hne]
        exact ih seen q h
      · rw [rdpAux, if_neg hp] at h
        rcases List.mem_cons.mp h with rfl | hq
        · rw [List.find?_cons]
          simp
        · have hq2 := rdpAux_not_mem_seen ps _ q hq
          have hne : (p.id == q.id) = false := by
            refine beq_false_of_ne ?_
            intro he; exact hq2 (he ▸ List.mem_cons_self _ _)
          rw [List.find?_cons, hne]
          exact ih _ q hq

/-- The ids of a deduplicated list are pairwise distinct. -/
theorem remove_duplicate_parts_nodup (l : List Part) :
    ((remove_duplicate_parts l).map Part.id).Nodup := rdpAux_nodup l []

/-- Every entry of a deduplicated list is the first entry of the input with
its id (so deduplication keeps first occurrences and drops the later
ones). -/
theorem remove_duplicate_parts_first (l : List Part) (q : Part)
    (h : q ∈ remove_duplicate_parts l) :
    l.find? (fun p => p.id == q.id) = some q := rdpAux_find? l [] q h

/-! ## A generic inversion for `findSome?` cascades -/

theorem findSome?_pred {α β : Type} (f : α → Option β) (P : β → Prop)
    (hf : ∀ a b, f a = some b → P b) :
    ∀ (l : List α) (v : β), l.findSome? f = some v → P v := by
  intro l
  induction l with
  | nil => intro v h; simp [List.findSome?] at h
  | cons a as ih =>
      intro v h
      rw [List.findSome?] at h
      cases ha : f a with
      | some b => rw [ha] at h; cases h; exact hf a _ ha
      | none => rw [ha] at h; exact ih v h

/-- Any odometer reading the cascade returns lies in `[1000, 500000]`. -/
theorem extract_odometer_range (text : List Char) (v : Nat)
    (h : extract_odometer text = some v) : 1000 ≤ v ∧ v ≤ 500000 := by
  unfold extract_odometer at h
  refine findSome?_pred _ (fun w => 1000 ≤ w ∧ w ≤ 500000) ?_ odoMatchers v h
  intro m w hm
  cases hg : searchGroup m (lowerL text) with
  | some g =>
      rw [hg] at hm
      dsimp only at hm
      split_ifs at hm with hcond
      · cases hm; exact hcond
  | none => rw [hg] at hm; cases hm

/-! ## Lemmas about the total-cost extractor -/

theorem totalCostCandidates_range (text : List Char) :
    ∀ a ∈ totalCostCandidates text, 10 ≤ a ∧ a ≤ 1000000 := by
  intro a ha
  unfold totalCostCandidates at ha
  rcases List.mem_flatMap.mp ha with ⟨m, _, hm⟩
  rcases List.mem_filterMap.mp hm with ⟨g, _, hg⟩
  dsimp only at hg
  split_ifs at hg with h
  · cases hg; exact h

theorem foldl_max_mem : ∀ (l : List ℚ) (a : ℚ), l.foldl max a ∈ a :: l := by
  intro l
  induction l with
  | nil => intro a; simp
  | cons b bs ih =>
      intro a
      rw [List.foldl_cons]
      rcases List.mem_cons.mp (ih (max a b)) with h | h
      · rcases max_choice a b with hm | hm
        · rw [h.trans hm]; exact List.mem_cons_self _ _
        · rw [h.trans hm]
          exact List.mem_cons_of_mem _ (List.mem_cons_self _ _)
      · exact List.mem_cons_of_mem _ (List.mem_cons_of_mem _ h)

theorem le_foldl_max : ∀ (l : List ℚ) (a : ℚ), ∀ x ∈ a :: l,
    x ≤ l.foldl max a := by
  intro l
  induction l with
  | nil =>
      intro a x hx
      rcases List.mem_cons.mp hx with rfl | hx2
      · simp
      · simp at hx2
  | cons b bs ih =>
      intro a x hx
      rw [List.foldl_cons]
      have key := ih (max a b)
      rcases List.mem_cons.mp hx with h | hx2
      · rw [h]
        exact le_trans (le_max_left a b) (key _ (List.mem_cons_self _ _))
      · rcases List.mem_cons.mp hx2 with h | hx3
        · rw [h]
          exact le_trans (le_max_right a b) (key _ (List.mem_cons_self _ _))
        · exact key _ (List.mem_cons_of_mem _ hx3)

theorem extract_total_cost_eq_nil (text : List Char)
    (hc : totalCostCandidates text = []) : extract_total_cost text = 0 := by
  unfold extract_total_cost
  rw [hc]

theorem extract_total_cost_eq_cons (text : List Char) (a : ℚ) (rest : List ℚ)
    (hc : totalCostCandidates text = a :: rest) :
    extract_total_cost text =
      if rest.isEmpty then a else rest.foldl max a := by
  unfold extract_total_cost
  rw [hc]

/-- Case analysis of `_extract_total_cost` over its candidate list. -/
theorem extract_total_cost_spec (text : List Char) :
    (totalCostCandidates text = [] → extract_total_cost text = 0) ∧
    (totalCostCandidates text ≠ [] →
      extract_total_cost text ∈ totalCostCandidates text ∧
      ∀ a ∈ totalCostCandidates text, a ≤ extract_total_cost text) := by
  constructor
  · exact extract_total_cost_eq_nil text
  · intro hne
    rcases List.exists_cons_of_ne_nil hne with ⟨a, rest, hc⟩
    have he := extract_total_cost_eq_cons text a rest hc
    rw [he, hc]
    by_cases hr : rest.isEmpty
    · rw [if_pos hr]
      have : rest = [] := by simpa using hr
      subst this
      constructor
      · exact List.mem_cons_self _ _
      · intro x hx
        rcases List.mem_cons.mp hx with h | hx2
        · rw [h]
        · simp at hx2
    · rw [if_neg hr]
      exact ⟨foldl_max_mem rest a, le_foldl_max rest a⟩

/-! ## Bounds of the confidence scorer -/

theorem confidence_bounds (text : List Char) (pr pp : List Part) (total : ℚ)
    (odo : Option Nat) :
    0 ≤ calculate_improved_confidence text pr pp total odo ∧
      calculate_improved_confidence text pr pp total odo ≤ 1 := by
  unfold calculate_improved_confidence
  constructor
  · refine le_min ?_ (by norm_num)
    have h1 : (0:ℚ) ≤
        (if 0 < pr.length + pp.length then
          min (2/5) (((pr.length + pp.length : Nat) : ℚ) * (3/20)) else 0) := by
      split_ifs
      · exact le_min (by norm_num) (by positivity)
      · exact le_refl 0
    have h2 : (0:ℚ) ≤
        (if 0 < total then
          1/5 + (if 100 ≤ total ∧ total ≤ 100000 then (1/20 : ℚ) else 0)
        else 0) := by
      split_ifs <;> norm_num
    have h3 : (0:ℚ) ≤
        (if (match odo with | some v => decide (v ≠ 0) | none => false) then
          (1/10 : ℚ) else 0) := by
      split_ifs <;> norm_num
    have h4 : (0:ℚ) ≤ min (3/20)
        (((goodKeywords.filter
          (fun k => searchWB k.data (lowerL text))).length : ℚ) * (1/50)) :=
      le_min (by norm_num) (by positivity)
    have h5 : (0:ℚ) ≤
        (if 10 < (pySplitWS text).length then (1/10 : ℚ)
        else if 5 < (pySplitWS text).length then 1/20 else 0) := by
      split_ifs <;> norm_num
    have h6 : (0:ℚ) ≤
        (if confActionWords.any
            (fun w => containsSub w.data (lowerL text)) then (1/20 : ℚ)
        else 0) := by
      split_ifs <;> norm_num
    have h7 : (0:ℚ) ≤
        (if confServiceWords.any
            (fun w => containsSub w.data (lowerL text)) then (1/20 : ℚ)
        else 0) := by
      split_ifs <;> norm_num
    have base : (0:ℚ) ≤ 3/10 := by norm_num
    positivity
  · exact min_le_right _ _

/-! ## Inversion of the pipeline -/

theorem process_main_ok (t : String) (r : ParseResult)
    (h : process_main t = .ok r) :
    ∃ s1r s1p comma,
      extract_parts_with_improved_detection (preT t) "replaced" = .ok s1r ∧
      extract_parts_with_improved_detection (preT t) "repaired" = .ok s1p ∧
      extract_comma_separated_parts (preT t) = .ok comma ∧
      r = assemble t (preT t) (extract_service_type (preT t)) s1r s1p
        comma := by
  unfold process_main at h
  cases h1 : extract_parts_with_improved_detection (preT t) "replaced" with
  | error e => rw [h1] at h; cases h
  | ok s1r =>
      rw [h1] at h
      dsimp only at h
      cases h2 : extract_parts_with_improved_detection (preT t) "repaired" with
      | error e => rw [h2] at h; cases h
      | ok s1p =>
          rw [h2] at h
          dsimp only at h
          cases h3 : extract_comma_separated_parts (preT t) with
          | error e => rw [h3] at h; cases h
          | ok comma =>
              rw [h3] at h
              dsimp only at h
              exact ⟨s1r, s1p, comma, rfl, rfl, rfl, (Except.ok.inj h).symm⟩

theorem process_transcript_cases (t : String) (r : ParseResult)
    (h : process_transcript t = .ok r) :
    (trimL t.data = [] ∧ r = emptyParse t) ∨
      (trimL t.data ≠ [] ∧ process_main t = .ok r) := by
  unfold process_transcript at h
  by_cases he : trimL t.data = []
  · rw [if_pos he] at h
    exact Or.inl ⟨he, (Except.ok.inj h).symm⟩
  · rw [if_neg he] at h
    exact Or.inr ⟨he, h⟩

/-! ## Projections of `assemble` -/

/-- The merged, deduplicated replaced-parts list of an assembled result. -/
theorem assemble_parts_replaced (t : String) (pre : List Char)
    (stype : String) (s1r s1p comma : List Part) :
    (assemble t pre stype s1r s1p comma).parts_replaced =
      remove_duplicate_parts
        ((s1r ++ comma) ++ apply_context_rules pre (s1r ++ comma) ++
          extract_implied_parts pre) := rfl

theorem assemble_parts_repaired (t : String) (pre : List Char)
    (stype : String) (s1r s1p comma : List Part) :
    (assemble t pre stype s1r s1p comma).parts_repaired =
      remove_duplicate_parts s1p := rfl

theorem assemble_confidence (t : String) (pre : List Char) (stype : String)
    (s1r s1p comma : List Part) :
    (assemble t pre stype s1r s1p comma).confidence_score =
      calculate_improved_confidence pre
        (remove_duplicate_parts
          ((s1r ++ comma) ++ apply_context_rules pre (s1r ++ comma) ++
            extract_implied_parts pre))
        (remove_duplicate_parts s1p)
        (extract_total_cost pre) (extract_odometer pre) := rfl

theorem assemble_odometer (t : String) (pre : List Char) (stype : String)
    (s1r s1p comma : List Part) :
    (assemble t pre stype s1r s1p comma).odometer_reading =
      extract_odometer pre := rfl

theorem assemble_labor_cost (t : String) (pre : List Char) (stype : String)
    (s1r s1p comma : List Part) :
    (assemble t pre stype s1r s1p comma).labor_cost =
      extract_cost pre ["labor", "work", "service", "charge", "fee"] := rfl

theorem assemble_parts_cost (t : String) (pre : List Char) (stype : String)
    (s1r s1p comma : List Part) :
    (assemble t pre stype s1r s1p comma).parts_cost =
      extract_cost pre ["parts", "spares", "components", "material"] := rfl

/-- The total-cost field of an assembled result, with the estimation and
`or`-fallback steps written out. -/
theorem assemble_total_cost (t : String) (pre : List Char) (stype : String)
    (s1r s1p comma : List Part) :
    (assemble t pre stype s1r s1p comma).total_cost =
      (if (if extract_total_cost pre = 0 ∧
            (¬((assemble t pre stype s1r s1p comma).parts_replaced).isEmpty ∨
             ¬((assemble t pre stype s1r s1p comma).parts_repaired).isEmpty)
          then
            estimate_cost
              ((assemble t pre stype s1r s1p comma).parts_replaced)
              ((assemble t pre stype s1r s1p comma).parts_repaired)
              (extract_cost pre ["labor", "work", "service", "charge", "fee"])
          else extract_total_cost pre) ≠ 0
      then
        (if extract_total_cost pre = 0 ∧
            (¬((assemble t pre stype s1r s1p comma).parts_replaced).isEmpty ∨
             ¬((assemble t pre stype s1r s1p comma).parts_repaired).isEmpty)
        then
          estimate_cost
            ((assemble t pre stype s1r s1p comma).parts_replaced)
            ((assemble t pre stype s1r s1p comma).parts_repaired)
            (extract_cost pre ["labor", "work", "service", "charge", "fee"])
        else extract_total_cost pre)
      else
        extract_cost pre ["labor", "work", "service", "charge", "fee"] +
          extract_cost pre ["parts", "spares", "components", "material"]) :=
  rfl

/-! ## The claims -/

/-- C1: the claim states that `process_transcript` never raises for any
string transcript.  The code violates it: on the transcript
`"replaced battery front and rear"`, strategy 1 detects the battery with a
"replaced" action in proximity and calls `_extract_quantity`, whose fourth
compiled pattern `front\s*and\s*rear` matches; that pattern has no capture
group, so `match.group(1)` raises `IndexError`, which the
`except (ValueError, AttributeError)` does not catch.  The exception
propagates out of `process_transcript`. -/
theorem C1_no_raise_violated :
    process_transcript "replaced battery front and rear" =
      .error PyErr.indexError := rfl

/-- C2: the claim states that on
`"Replaced brake pads front and rear, total 3000 rupees"` the engine
returns Brake Pads with quantity 2 and total cost 3000.  The code instead
raises: the comma-list strategy captures
`"brake pads front and rear, total 3000 rupees"`, its first split item
matches the brake-pad keyword, and the quantity extraction hits the
group-less pattern `front\s*and\s*rear`, raising an uncaught
`IndexError`. -/
theorem C2_scenario_crash :
    process_transcript "Replaced brake pads front and rear, total 3000 rupees"
      = .error PyErr.indexError := rfl

/-- C3 (counterexample): the claim states that every monetary amount
surfaced in the result (`labor_cost`, `parts_cost`, `total_cost`) lies in
`[10, 1000000]`.  On the transcript `"labor 5"` the scoped labor extractor
returns 5 (it has no range filter), and because the total-cost cascade's
only candidate (5, via `[Rs$]\s*(\d+)` matching the `r` of `labor`) is
discarded as out of range, the result's `total_cost` falls back to
`labor_cost + parts_cost = 5`.  Both surfaced amounts are below 10. -/
theorem C3_counterexample :
    (process_transcript "labor 5").map
        (fun r => (r.labor_cost, r.total_cost)) = .ok (5, 5) ∧
      ¬((10 : ℚ) ≤ 5 ∧ (5 : ℚ) ≤ 1000000) := by
  constructor
  · with_unfolding_all rfl
  · norm_num

/-- C3 (amended): the `[10, 1000000]` filter applies only to the
total-cost cascade: every amount `_extract_total_cost` returns is either 0
(no valid candidate) or lies in the range.  The scoped `labor_cost` and
`parts_cost` extractions are unfiltered and can surface out-of-range
values, which also reach `total_cost` through the
`total_cost or (labor_cost + parts_cost)` fallback. -/
theorem C3_amended (text : List Char) :
    extract_total_cost text = 0 ∨
      (10 ≤ extract_total_cost text ∧ extract_total_cost text ≤ 1000000) := by
  by_cases hc : totalCostCandidates text = []
  · exact Or.inl ((extract_total_cost_spec text).1 hc)
  · exact Or.inr
      (totalCostCandidates_range text _ ((extract_total_cost_spec text).2 hc).1)

/-- C4: the claim states that the quantity extractor always returns a
positive integer.  The code violates it twice: for the text
`"front and rear"` (with any brake-pad keyword), the group-less compiled
pattern `front\s*and\s*rear` is the first match and `match.group(1)`
raises an uncaught `IndexError` instead of returning the claimed default 2;
and for the text `"0 tires"` the pattern `(\d+)\s*(?:tires|tyres|wheels)`
captures `"0"` (a truthy non-empty string), so 0 is returned. -/
theorem C4_quantity_crash :
    extract_quantity ("front and rear".data) ("brake pad".data) =
        .error PyErr.indexError ∧
      extract_quantity ("0 tires".data) ("battery".data) = .ok 0 :=
  ⟨rfl, rfl⟩

/-- C5: an empty or whitespace-only transcript short-circuits to the
default result: service type `regular_service`, empty part lists, all
costs 0, no odometer reading, confidence 0, not parsed successfully. -/
theorem C5_empty_short_circuit (t : String) (h : trimL t.data = []) :
    (process_transcript t).map (fun r =>
        (r.service_type, r.parts_replaced, r.parts_repaired, r.labor_cost,
          r.parts_cost, r.total_cost, r.odometer_reading,
          r.confidence_score, r.parsed_successfully)) =
      .ok ("regular_service", [], [], 0, 0, 0, none, 0, false) := by
  unfold process_transcript
  rw [if_pos h]
  rfl

theorem C5_witness :
    trimL (("   ").data) = [] ∧
      (process_transcript "   ").map (fun r =>
          (r.service_type, r.parts_replaced, r.parts_repaired, r.labor_cost,
            r.parts_cost, r.total_cost, r.odometer_reading,
            r.confidence_score, r.parsed_successfully)) =
        .ok ("regular_service", [], [], 0, 0, 0, none, 0, false) :=
  ⟨by decide, C5_empty_short_circuit "   " (by decide)⟩

/-- C6: the total-cost extractor collects every cascade match in
`[10, 1000000]`; with no candidate it returns 0, with exactly one it
returns that candidate, and with several it returns the maximum (a
candidate that is an upper bound of all candidates). -/
theorem C6_total_cost (text : List Char) :
    (∀ a ∈ totalCostCandidates text, 10 ≤ a ∧ a ≤ 1000000) ∧
    (totalCostCandidates text = [] → extract_total_cost text = 0) ∧
    (totalCostCandidates text ≠ [] →
      extract_total_cost text ∈ totalCostCandidates text ∧
      ∀ a ∈ totalCostCandidates text, a ≤ extract_total_cost text) ∧
    (∀ a, totalCostCandidates text = [a] → extract_total_cost text = a) := by
  refine ⟨totalCostCandidates_range text, (extract_total_cost_spec text).1,
    (extract_total_cost_spec text).2, ?_⟩
  intro a ha
  simpa using extract_total_cost_eq_cons text a [] ha

theorem C6_witness :
    extract_total_cost (("cost is 500").data) ∈
      totalCostCandidates (("cost is 500").data) := by
  have hne : totalCostCandidates (("cost is 500").data) ≠ [] := by
    have hc : totalCostCandidates (("cost is 500").data) = [500, 500] := by
      with_unfolding_all rfl
    rw [hc]
    simp
  exact ((C6_total_cost (("cost is 500").data)).2.2.1 hne).1

/-- C7: in every successfully returned result, `parts_replaced` and
`parts_repaired` contain at most one entry per distinct part id; for a
non-blank transcript they are exactly the deduplications of the four
strategies' concatenated outputs (strategy order: proximity, comma list,
context rules, implied patterns for the replaced list; the "repaired"
proximity run for the repaired list), and every kept entry is the first
entry with its id in that concatenation — later duplicates are
discarded. -/
theorem C7_dedup (t : String) (r : ParseResult)
    (h : process_transcript t = .ok r) :
    ((r.parts_replaced.map Part.id).Nodup ∧
      (r.parts_repaired.map Part.id).Nodup) ∧
    (trimL t.data ≠ [] → ∃ s1r s1p comma,
      extract_parts_with_improved_detection (preT t) "replaced" = .ok s1r ∧
      extract_parts_with_improved_detection (preT t) "repaired" = .ok s1p ∧
      extract_comma_separated_parts (preT t) = .ok comma ∧
      r.parts_replaced = remove_duplicate_parts
        ((s1r ++ comma) ++ apply_context_rules (preT t) (s1r ++ comma) ++
          extract_implied_parts (preT t)) ∧
      r.parts_repaired = remove_duplicate_parts s1p ∧
      (∀ q ∈ r.parts_replaced,
        ((s1r ++ comma) ++ apply_context_rules (preT t) (s1r ++ comma) ++
          extract_implied_parts (preT t)).find? (fun p => p.id == q.id) =
          some q) ∧
      (∀ q ∈ r.parts_repaired,
        s1p.find? (fun p => p.id == q.id) = some q)) := by
  rcases process_transcript_cases t r h with ⟨he, rfl⟩ | ⟨hne, hm⟩
  · exact ⟨⟨by simp [emptyParse], by simp [emptyParse]⟩,
      fun hcon => absurd he hcon⟩
  · rcases process_main_ok t r hm with ⟨s1r, s1p, comma, h1, h2, h3, rfl⟩
    refine ⟨⟨?_, ?_⟩, fun _ => ⟨s1r, s1p, comma, h1, h2, h3,
      assemble_parts_replaced t (preT t) _ s1r s1p comma,
      assemble_parts_repaired t (preT t) _ s1r s1p comma, ?_, ?_⟩⟩
    · rw [assemble_parts_replaced]
      exact remove_duplicate_parts_nodup _
    · rw [assemble_parts_repaired]
      exact remove_duplicate_parts_nodup _
    · intro q hq
      rw [assemble_parts_replaced] at hq
      exact remove_duplicate_parts_first _ q hq
    · intro q hq
      rw [assemble_parts_repaired] at hq
      exact remove_duplicate_parts_first _ q hq

theorem C7_witness :
    (((okOr (emptyParse "") (process_transcript "hello")).parts_replaced.map
          Part.id).Nodup ∧
      ((okOr (emptyParse "")
          (process_transcript "hello")).parts_repaired.map Part.id).Nodup) :=
  (C7_dedup "hello" (okOr (emptyParse "") (process_transcript "hello"))
    (by with_unfolding_all rfl)).1

/-- C8: every successfully returned result has a confidence score in
`[0, 1]` and an odometer reading that is either absent or lies in
`[1000, 500000]`. -/
theorem C8_invariants (t : String) (r : ParseResult)
    (h : process_transcript t = .ok r) :
    (0 ≤ r.confidence_score ∧ r.confidence_score ≤ 1) ∧
    (r.odometer_reading = none ∨
      ∃ v, r.odometer_reading = some v ∧ 1000 ≤ v ∧ v ≤ 500000) := by
  rcases process_transcript_cases t r h with ⟨-, rfl⟩ | ⟨-, hm⟩
  · exact ⟨⟨by norm_num [emptyParse], by norm_num [emptyParse]⟩,
      Or.inl rfl⟩
  · rcases process_main_ok t r hm with ⟨s1r, s1p, comma, -, -, -, rfl⟩
    constructor
    · rw [assemble_confidence]
      exact confidence_bounds _ _ _ _ _
    · rw [assemble_odometer]
      cases ho : extract_odometer (preT t) with
      | none => exact Or.inl rfl
      | some v =>
          exact Or.inr ⟨v, rfl, extract_odometer_range (preT t) v ho⟩

theorem C8_witness :
    0 ≤ (okOr (emptyParse "") (process_transcript "hello")).confidence_score
      ∧ (okOr (emptyParse "")
          (process_transcript "hello")).confidence_score ≤ 1 :=
  (C8_invariants "hello" (okOr (emptyParse "") (process_transcript "hello"))
    (by with_unfolding_all rfl)).1

/-- C9: `process_transcript` is deterministic.  The engine is embedded as a
pure function — the source reads only its immutable compiled-pattern and
catalog data, uses no randomness, time, or global mutable state — so two
invocations on equal transcripts produce equal results in every field. -/
theorem C9_deterministic (s₁ s₂ : String) (h : s₁ = s₂) :
    process_transcript s₁ = process_transcript s₂ := by rw [h]

theorem C9_witness :
    process_transcript "oil change" = process_transcript "oil change" :=
  C9_deterministic "oil change" "oil change" rfl

/-- C10 (counterexample): the claim states that for a non-empty transcript
with no valid cascade total and no detected parts, the returned
`total_cost` "is not 0.0" but equals `labor_cost + parts_cost`.  On
`"hello world"` all the claim's conditions hold, and the returned
`total_cost` is exactly 0 (`labor_cost` and `parts_cost` are both 0, and
`0.0 or (0.0 + 0.0)` is `0.0`). -/
theorem C10_counterexample :
    trimL (("hello world").data) ≠ [] ∧
      (process_transcript "hello world").map (fun r =>
          (r.parts_replaced, r.parts_repaired, r.labor_cost, r.parts_cost,
            r.total_cost)) = .ok ([], [], 0, 0, 0) ∧
      extract_total_cost (preT "hello world") = 0 := by
  refine ⟨by decide, ?_, ?_⟩
  · with_unfolding_all rfl
  · with_unfolding_all rfl

/-- C10 (amended): whenever the total-cost cascade finds nothing and no
parts were detected in either list, the returned `total_cost` equals
`labor_cost + parts_cost` (which may itself be 0.0); the fallback estimator
is bypassed because it only runs when at least one part was detected. -/
theorem C10_amended (t : String) (r : ParseResult)
    (h : process_transcript t = .ok r)
    (hc : extract_total_cost (preT t) = 0)
    (hr : r.parts_replaced = []) (hp : r.parts_repaired = []) :
    r.total_cost = r.labor_cost + r.parts_cost := by
  rcases process_transcript_cases t r h with ⟨-, rfl⟩ | ⟨-, hm⟩
  · norm_num [emptyParse]
  · rcases process_main_ok t r hm with ⟨s1r, s1p, comma, -, -, -, rfl⟩
    rw [assemble_parts_replaced] at hr
    rw [assemble_parts_repaired] at hp
    rw [assemble_total_cost, assemble_labor_cost, assemble_parts_cost,
      assemble_parts_replaced, assemble_parts_repaired, hr, hp, hc]
    simp

theorem C10_witness :
    (okOr (emptyParse "") (process_transcript "hello world")).total_cost =
      (okOr (emptyParse "") (process_transcript "hello world")).labor_cost +
        (okOr (emptyParse "")
          (process_transcript "hello world")).parts_cost :=
  C10_amended "hello world"
    (okOr (emptyParse "") (process_transcript "hello world"))
    (by with_unfolding_all rfl) (by with_unfolding_all rfl)
    (by with_unfolding_all rfl) (by with_unfolding_all rfl)

end VoiceService
